import Mathlib

/-!
Verification of the model translation and assembly engine of `asgardpy`
(`asgardpy/data/target.py`), against its natural-language specification.

Shallow embedding conventions:
* Python floats are modelled as `ℚ` (the translation rules are exact
  rational scalings, so nothing is lost);
* Python dicts coming from the parsed XML model are modelled as records
  with the fields the code reads (`@name`, `@value`, `@scale`, `@min`,
  `@max`, `@free`, optional `@error`);
* fallible code paths (raised exceptions) are modelled with `Except PyError`;
* the filesystem test `Path.is_file()` is a function parameter
  `isF : String → Bool`;
* gammapy/astropy model objects are modelled symbolically: a constructor
  records which class was instantiated and from which data.
-/

namespace Asgardpy

/-- Python's `str.lower()` (ASCII names only appear in the translated code),
written as a structural map so that it reduces. -/
def pyLower (s : String) : String := String.mk (s.data.map Char.toLower)

/-- Python exceptions that the translated code can raise. -/
inductive PyError where
  | typeError
  | indexError
  | keyError (name : String)
  | nameError
  | attributeError
  | valueError
deriving DecidableEq, Repr

/-- One `<parameter .../>` record of the XML (FermiTools) spectral model:
the keys the code reads are `@name`, `@value`, `@scale`, `@min`, `@max`,
`@free` and (optionally) `@error`. -/
structure XmlParam where
  name : String
  value : ℚ
  scale : ℚ
  min : ℚ
  max : ℚ
  free : String
  error : Option ℚ := none
deriving DecidableEq, Repr

/-- The `new_par` dictionary built by `xml_spectral_model_to_gammapy_params`,
i.e. the data finally copied onto a gammapy `Parameter`. -/
structure GammapyParam where
  name : String
  value : ℚ
  error : Option ℚ
  min : ℚ
  max : ℚ
  unit : String
  frozen : Bool
  is_norm : Bool
deriving DecidableEq, Repr

/-- The gammapy-nomenclature renaming chain of
`xml_spectral_model_to_gammapy_params` (target.py lines 355-397).
An unrecognized raw name is kept unchanged. -/
def canonicalName (rawName spectrum_type : String) : String :=
  let n := pyLower rawName
  if n = "norm" ∨ n = "prefactor" ∨ n = "integral" then "amplitude"
  else if n = "scale" ∨ n = "eb" then "reference"
  else if n = "breakvalue" then "ebreak"
  else if n = "lowerlimit" then "emin"
  else if n = "upperlimit" then "emax"
  else if n = "cutoff" ∨ n = "expfactor" then "lambda_"
  else if n = "index" then "index"
  else if n = "index1" then
    if spectrum_type = "PLSuperExpCutoff" ∨ spectrum_type = "PLSuperExpCutoff2" then
      "index"
    else
      "index1"
  else if n = "indexs" then "index_1"
  else if n = "index2" then
    if spectrum_type = "PLSuperExpCutoff4" then "index_2"
    else if spectrum_type = "PLSuperExpCutoff" ∨ spectrum_type = "PLSuperExpCutoff2" then
      "alpha"
    else
      "index2"
  else if n = "expfactors" then "expfactor"
  else rawName

/-- The unit tag assigned inside the renaming chain (it is keyed on the raw
lowercased `@name`, not on the canonical name). -/
def unitForRaw (n : String) : String :=
  if n = "norm" ∨ n = "prefactor" ∨ n = "integral" then "cm-2 s-1 TeV-1"
  else if n = "cutoff" ∨ n = "expfactor" then "TeV-1"
  else ""

/-- `is_norm` is set inside the renaming chain, for the amplitude source
names only. -/
def isNormRaw (n : String) : Bool :=
  n = "norm" || n = "prefactor" || n = "integral"

/-- target.py lines 400-406: energy-like parameters are rescaled to TeV
by `scale * 1.0e-6` (value, error when present, min, max). -/
def scaleEnergyParam (g : GammapyParam) (scale : ℚ) : GammapyParam :=
  if g.name = "reference" ∨ g.name = "ebreak" ∨ g.name = "emin" ∨ g.name = "emax" then
    { g with
      unit := "TeV"
      value := g.value * scale * (1 / 1000000)
      error := g.error.map (fun e => e * scale * (1 / 1000000))
      min := g.min * scale * (1 / 1000000)
      max := g.max * scale * (1 / 1000000) }
  else g

/-- target.py lines 408-413: the amplitude parameter is rescaled by
`scale * 1.0e6`. -/
def scaleAmplitudeParam (g : GammapyParam) (scale : ℚ) : GammapyParam :=
  if g.name = "amplitude" then
    { g with
      value := g.value * scale * 1000000
      error := g.error.map (fun e => e * scale * 1000000)
      min := g.min * scale * 1000000
      max := g.max * scale * 1000000 }
  else g

/-- target.py lines 415-426: spectral indices are flipped to the positive
convention unless `keep_sign` is set; the bounds are negated and reordered
only when `value * scale < 0`. -/
def normalizeIndexSign (g : GammapyParam) (scale : ℚ) (keep_sign : Bool) : GammapyParam :=
  if (g.name = "index" ∨ g.name = "index_1" ∨ g.name = "index_2" ∨ g.name = "beta")
      ∧ keep_sign = false then
    let val := g.value * scale
    if val < 0 then
      let min_ := -1 * g.min * scale
      let max_ := -1 * g.max * scale
      { g with value := -1 * val, min := min min_ max_, max := max min_ max_ }
    else g
  else g

/-- target.py lines 428-448: the two family-specific conventions for
`lambda_`.  `PLSuperExpCutoff` uses the reciprocal (the XML cutoff energy is
the inverse of the gammapy `lambda_`), `PLSuperExpCutoff2` uses the direct
micro-scaling. -/
def scaleLambdaParam (g : GammapyParam) (scale : ℚ) (spectrum_type : String) : GammapyParam :=
  if g.name = "lambda_" then
    if spectrum_type = "PLSuperExpCutoff" then
      let val := g.value * scale
      let min_ := 1000000 / (g.min * scale)
      let max_ := 1000000 / (g.max * scale)
      { g with
        value := 1000000 / val
        error := g.error.map (fun e => 1000000 * e / val ^ 2)
        min := min min_ max_
        max := max min_ max_ }
    else if spectrum_type = "PLSuperExpCutoff2" then
      { g with
        value := g.value * scale * 1000000
        error := g.error.map (fun e => e * scale * 1000000)
        min := g.min * scale * 1000000
        max := g.max * scale * 1000000 }
    else g
  else g

/-- target.py lines 450-454: the frozen flag of the `alpha` parameter of the
`PLSuperExpCutoff`/`PLSuperExpCutoff2` families is taken from the `@free`
flag unconditionally. -/
def overrideAlphaFrozen (g : GammapyParam) (free : String) (spectrum_type : String) :
    GammapyParam :=
  if g.name = "alpha"
      ∧ (spectrum_type = "PLSuperExpCutoff" ∨ spectrum_type = "PLSuperExpCutoff2") then
    { g with frozen := (free == "0") }
  else g

/-- The body of the translation loop of `xml_spectral_model_to_gammapy_params`
(target.py lines 337-466) for one XML parameter record. -/
def xml_param_to_gammapy (p : XmlParam) (spectrum_type : String)
    (is_target keep_sign : Bool) : GammapyParam :=
  let nlow := pyLower p.name
  -- target.py lines 344-349: the frozen flag; the reference energy
  -- (`scale`/`eb`) never has its frozen status relaxed for the target.
  let frozen0 : Bool :=
    if nlow = "scale" ∨ nlow = "eb" then (p.free == "0")
    else (p.free == "0") && !is_target
  let base : GammapyParam :=
    { name := canonicalName p.name spectrum_type
      value := p.value
      error := p.error
      min := p.min
      max := p.max
      unit := unitForRaw nlow
      frozen := frozen0
      is_norm := isNormRaw nlow }
  let g1 := scaleEnergyParam base p.scale
  let g2 := scaleAmplitudeParam g1 p.scale
  let g3 := normalizeIndexSign g2 p.scale keep_sign
  let g4 := scaleLambdaParam g3 p.scale spectrum_type
  overrideAlphaFrozen g4 p.free spectrum_type

/-- target.py `xml_spectral_model_to_gammapy_params`: translate every
parameter record of one XML spectral model. -/
def xml_spectral_model_to_gammapy_params (params : List XmlParam)
    (spectrum_type : String) (is_target keep_sign : Bool) : List GammapyParam :=
  params.map (fun p => xml_param_to_gammapy p spectrum_type is_target keep_sign)

/-! Field-preservation lemmas for the translation blocks. -/

theorem scaleEnergyParam_name (g : GammapyParam) (s : ℚ) :
    (scaleEnergyParam g s).name = g.name := by
  unfold scaleEnergyParam; split <;> rfl

theorem scaleEnergyParam_frozen (g : GammapyParam) (s : ℚ) :
    (scaleEnergyParam g s).frozen = g.frozen := by
  unfold scaleEnergyParam; split <;> rfl

theorem scaleEnergyParam_is_norm (g : GammapyParam) (s : ℚ) :
    (scaleEnergyParam g s).is_norm = g.is_norm := by
  unfold scaleEnergyParam; split <;> rfl

theorem scaleAmplitudeParam_name (g : GammapyParam) (s : ℚ) :
    (scaleAmplitudeParam g s).name = g.name := by
  unfold scaleAmplitudeParam; split <;> rfl

theorem scaleAmplitudeParam_frozen (g : GammapyParam) (s : ℚ) :
    (scaleAmplitudeParam g s).frozen = g.frozen := by
  unfold scaleAmplitudeParam; split <;> rfl

theorem scaleAmplitudeParam_is_norm (g : GammapyParam) (s : ℚ) :
    (scaleAmplitudeParam g s).is_norm = g.is_norm := by
  unfold scaleAmplitudeParam; split <;> rfl

theorem scaleAmplitudeParam_unit (g : GammapyParam) (s : ℚ) :
    (scaleAmplitudeParam g s).unit = g.unit := by
  unfold scaleAmplitudeParam; split <;> rfl

theorem normalizeIndexSign_name (g : GammapyParam) (s : ℚ) (k : Bool) :
    (normalizeIndexSign g s k).name = g.name := by
  simp only [normalizeIndexSign]; split <;> [skip; rfl]; split <;> rfl

theorem normalizeIndexSign_frozen (g : GammapyParam) (s : ℚ) (k : Bool) :
    (normalizeIndexSign g s k).frozen = g.frozen := by
  simp only [normalizeIndexSign]; split <;> [skip; rfl]; split <;> rfl

theorem normalizeIndexSign_is_norm (g : GammapyParam) (s : ℚ) (k : Bool) :
    (normalizeIndexSign g s k).is_norm = g.is_norm := by
  simp only [normalizeIndexSign]; split <;> [skip; rfl]; split <;> rfl

theorem normalizeIndexSign_unit (g : GammapyParam) (s : ℚ) (k : Bool) :
    (normalizeIndexSign g s k).unit = g.unit := by
  simp only [normalizeIndexSign]; split <;> [skip; rfl]; split <;> rfl

theorem normalizeIndexSign_error (g : GammapyParam) (s : ℚ) (k : Bool) :
    (normalizeIndexSign g s k).error = g.error := by
  simp only [normalizeIndexSign]; split <;> [skip; rfl]; split <;> rfl

theorem scaleLambdaParam_name (g : GammapyParam) (s : ℚ) (st : String) :
    (scaleLambdaParam g s st).name = g.name := by
  simp only [scaleLambdaParam]; split <;> [skip; rfl]; split <;> [rfl; split <;> rfl]

theorem scaleLambdaParam_frozen (g : GammapyParam) (s : ℚ) (st : String) :
    (scaleLambdaParam g s st).frozen = g.frozen := by
  simp only [scaleLambdaParam]; split <;> [skip; rfl]; split <;> [rfl; split <;> rfl]

theorem scaleLambdaParam_is_norm (g : GammapyParam) (s : ℚ) (st : String) :
    (scaleLambdaParam g s st).is_norm = g.is_norm := by
  simp only [scaleLambdaParam]; split <;> [skip; rfl]; split <;> [rfl; split <;> rfl]

theorem scaleLambdaParam_unit (g : GammapyParam) (s : ℚ) (st : String) :
    (scaleLambdaParam g s st).unit = g.unit := by
  simp only [scaleLambdaParam]; split <;> [skip; rfl]; split <;> [rfl; split <;> rfl]

theorem overrideAlphaFrozen_name (g : GammapyParam) (f st : String) :
    (overrideAlphaFrozen g f st).name = g.name := by
  unfold overrideAlphaFrozen; split <;> rfl

theorem overrideAlphaFrozen_value (g : GammapyParam) (f st : String) :
    (overrideAlphaFrozen g f st).value = g.value := by
  unfold overrideAlphaFrozen; split <;> rfl

theorem overrideAlphaFrozen_error (g : GammapyParam) (f st : String) :
    (overrideAlphaFrozen g f st).error = g.error := by
  unfold overrideAlphaFrozen; split <;> rfl

theorem overrideAlphaFrozen_min (g : GammapyParam) (f st : String) :
    (overrideAlphaFrozen g f st).min = g.min := by
  unfold overrideAlphaFrozen; split <;> rfl

theorem overrideAlphaFrozen_max (g : GammapyParam) (f st : String) :
    (overrideAlphaFrozen g f st).max = g.max := by
  unfold overrideAlphaFrozen; split <;> rfl

theorem overrideAlphaFrozen_unit (g : GammapyParam) (f st : String) :
    (overrideAlphaFrozen g f st).unit = g.unit := by
  unfold overrideAlphaFrozen; split <;> rfl

theorem overrideAlphaFrozen_is_norm (g : GammapyParam) (f st : String) :
    (overrideAlphaFrozen g f st).is_norm = g.is_norm := by
  unfold overrideAlphaFrozen; split <;> rfl

theorem overrideAlphaFrozen_frozen (g : GammapyParam) (f st : String) :
    (overrideAlphaFrozen g f st).frozen =
      if g.name = "alpha" ∧ (st = "PLSuperExpCutoff" ∨ st = "PLSuperExpCutoff2")
      then (f == "0") else g.frozen := by
  unfold overrideAlphaFrozen; split <;> simp_all

/-- The translated parameter's final name is the canonical name. -/
theorem xml_param_name_eq (p : XmlParam) (st : String) (t k : Bool) :
    (xml_param_to_gammapy p st t k).name = canonicalName p.name st := by
  simp only [xml_param_to_gammapy, overrideAlphaFrozen_name, scaleLambdaParam_name,
    normalizeIndexSign_name, scaleAmplitudeParam_name, scaleEnergyParam_name]

/-- The translated parameter's frozen flag: the `@free` flag, with the
target-source relaxation, except for the reference energy (`scale`/`eb`) and
for the `alpha` parameter of the super-exponential-cutoff families. -/
theorem xml_param_frozen_eq (p : XmlParam) (st : String) (t k : Bool) :
    (xml_param_to_gammapy p st t k).frozen =
      if canonicalName p.name st = "alpha"
          ∧ (st = "PLSuperExpCutoff" ∨ st = "PLSuperExpCutoff2")
      then (p.free == "0")
      else if pyLower p.name = "scale" ∨ pyLower p.name = "eb" then (p.free == "0")
      else (p.free == "0") && !t := by
  simp only [xml_param_to_gammapy, overrideAlphaFrozen_frozen, scaleLambdaParam_frozen,
    normalizeIndexSign_frozen, scaleAmplitudeParam_frozen, scaleEnergyParam_frozen,
    scaleLambdaParam_name, normalizeIndexSign_name, scaleAmplitudeParam_name,
    scaleEnergyParam_name]

/-! Identity lemmas: each block leaves a parameter alone when its name does
not select the block. -/

theorem scaleEnergyParam_id (g : GammapyParam) (s : ℚ)
    (h : ¬(g.name = "reference" ∨ g.name = "ebreak" ∨ g.name = "emin" ∨ g.name = "emax")) :
    scaleEnergyParam g s = g := by
  unfold scaleEnergyParam; rw [if_neg h]

theorem scaleAmplitudeParam_id (g : GammapyParam) (s : ℚ) (h : ¬g.name = "amplitude") :
    scaleAmplitudeParam g s = g := by
  unfold scaleAmplitudeParam; rw [if_neg h]

theorem normalizeIndexSign_id (g : GammapyParam) (s : ℚ) (k : Bool)
    (h : ¬((g.name = "index" ∨ g.name = "index_1" ∨ g.name = "index_2" ∨ g.name = "beta")
          ∧ k = false)) :
    normalizeIndexSign g s k = g := by
  simp only [normalizeIndexSign]; rw [if_neg h]

theorem scaleLambdaParam_id (g : GammapyParam) (s : ℚ) (st : String)
    (h : ¬g.name = "lambda_") :
    scaleLambdaParam g s st = g := by
  simp only [scaleLambdaParam]; rw [if_neg h]

theorem overrideAlphaFrozen_id (g : GammapyParam) (f st : String)
    (h : ¬(g.name = "alpha" ∧ (st = "PLSuperExpCutoff" ∨ st = "PLSuperExpCutoff2"))) :
    overrideAlphaFrozen g f st = g := by
  unfold overrideAlphaFrozen; rw [if_neg h]

/-- Characterization of the whole translation for index-like canonical names:
only the sign-normalization block touches the numbers, and only when
`value * scale < 0`. -/
theorem xml_param_index_eq (p : XmlParam) (st : String) (t : Bool)
    (hn : canonicalName p.name st = "index" ∨ canonicalName p.name st = "index_1" ∨
          canonicalName p.name st = "index_2" ∨ canonicalName p.name st = "beta") :
    (xml_param_to_gammapy p st t false).value
        = (if p.value * p.scale < 0 then -1 * (p.value * p.scale) else p.value) ∧
    (xml_param_to_gammapy p st t false).min
        = (if p.value * p.scale < 0
           then min (-1 * p.min * p.scale) (-1 * p.max * p.scale) else p.min) ∧
    (xml_param_to_gammapy p st t false).max
        = (if p.value * p.scale < 0
           then max (-1 * p.min * p.scale) (-1 * p.max * p.scale) else p.max) := by
  have hne : ¬(canonicalName p.name st = "reference" ∨ canonicalName p.name st = "ebreak" ∨
      canonicalName p.name st = "emin" ∨ canonicalName p.name st = "emax") := by
    rcases hn with hc | hc | hc | hc <;> rw [hc] <;> decide
  have hna : ¬canonicalName p.name st = "amplitude" := by
    rcases hn with hc | hc | hc | hc <;> rw [hc] <;> decide
  have hnl : ¬canonicalName p.name st = "lambda_" := by
    rcases hn with hc | hc | hc | hc <;> rw [hc] <;> decide
  have hnalpha : ¬canonicalName p.name st = "alpha" := by
    rcases hn with hc | hc | hc | hc <;> rw [hc] <;> decide
  simp only [xml_param_to_gammapy]
  rw [scaleEnergyParam_id _ _ hne, scaleAmplitudeParam_id _ _ hna]
  simp only [normalizeIndexSign]
  rw [if_pos ⟨hn, trivial⟩]
  rcases lt_or_ge (p.value * p.scale) 0 with hv | hv
  · simp only [if_pos hv]
    rw [scaleLambdaParam_id _ _ _ hnl,
      overrideAlphaFrozen_id _ _ _ (fun hh => hnalpha hh.1)]
    exact ⟨rfl, rfl, rfl⟩
  · simp only [if_neg (not_lt.mpr hv)]
    rw [scaleLambdaParam_id _ _ _ hnl,
      overrideAlphaFrozen_id _ _ _ (fun hh => hnalpha hh.1)]
    exact ⟨rfl, rfl, rfl⟩

/-! Claim C2: index-like parameter sign normalization. -/

/-- C2 counterexample: the claim asserts that for index-like parameters with
`keep_sign=false` the output value is non-negative and min ≤ max regardless
of the signs of the raw value and of the scale factor.  With raw value `-2`,
scale `-1` (and raw bounds `min=3 > max=2`) the product `value*scale = 2` is
non-negative, so the normalization branch is skipped and the raw negative
value and unordered bounds are kept. -/
theorem index_sign_claim_counterexample :
    (xml_param_to_gammapy
        { name := "index", value := -2, scale := -1, min := 3, max := 2, free := "1" }
        "PowerLaw" false false).value < 0 ∧
    (xml_param_to_gammapy
        { name := "index", value := -2, scale := -1, min := 3, max := 2, free := "1" }
        "PowerLaw" false false).max <
      (xml_param_to_gammapy
        { name := "index", value := -2, scale := -1, min := 3, max := 2, free := "1" }
        "PowerLaw" false false).min := by
  simp [xml_param_to_gammapy, pyLower, canonicalName, unitForRaw, isNormRaw,
    scaleEnergyParam, scaleAmplitudeParam, normalizeIndexSign, scaleLambdaParam,
    overrideAlphaFrozen]
  norm_num

/-- C2 (amended): for index-like parameters (`index`, `index_1`, `index_2`,
`beta`) with `keep_sign=false`, PROVIDED the scale factor is positive and the
raw bounds are ordered (`min ≤ max`), the output value is non-negative and
the output min is ≤ the output max, regardless of the sign of the raw
value. -/
theorem index_sign_normalization (p : XmlParam) (st : String) (t : Bool)
    (hn : canonicalName p.name st = "index" ∨ canonicalName p.name st = "index_1" ∨
          canonicalName p.name st = "index_2" ∨ canonicalName p.name st = "beta")
    (hs : 0 < p.scale) (hmm : p.min ≤ p.max) :
    0 ≤ (xml_param_to_gammapy p st t false).value ∧
    (xml_param_to_gammapy p st t false).min ≤ (xml_param_to_gammapy p st t false).max := by
  obtain ⟨hval, hmin, hmax⟩ := xml_param_index_eq p st t hn
  rw [hval, hmin, hmax]
  rcases lt_or_ge (p.value * p.scale) 0 with hv | hv
  · simp only [if_pos hv]
    exact ⟨by nlinarith, min_le_max⟩
  · simp only [if_neg (not_lt.mpr hv)]
    exact ⟨by nlinarith, hmm⟩

/-- C2 witness: a concrete index parameter with negative raw value and
positive scale is flipped to a non-negative value with ordered bounds. -/
theorem index_sign_normalization_witness :
    0 ≤ (xml_param_to_gammapy
          { name := "Index1", value := -5/2, scale := 1, min := -5, max := -1, free := "1" }
          "PLSuperExpCutoff" false false).value ∧
    (xml_param_to_gammapy
          { name := "Index1", value := -5/2, scale := 1, min := -5, max := -1, free := "1" }
          "PLSuperExpCutoff" false false).min ≤
      (xml_param_to_gammapy
          { name := "Index1", value := -5/2, scale := 1, min := -5, max := -1, free := "1" }
          "PLSuperExpCutoff" false false).max :=
  index_sign_normalization
    { name := "Index1", value := -5/2, scale := 1, min := -5, max := -1, free := "1" }
    "PLSuperExpCutoff" false
    (Or.inl (by simp [canonicalName, pyLower]))
    (by norm_num) (by norm_num)

/-- Characterization of the whole translation for energy-like canonical
names (`reference`, `ebreak`, `emin`, `emax`). -/
theorem xml_param_energy_eq (p : XmlParam) (st : String) (t k : Bool)
    (hn : canonicalName p.name st = "reference" ∨ canonicalName p.name st = "ebreak" ∨
          canonicalName p.name st = "emin" ∨ canonicalName p.name st = "emax") :
    (xml_param_to_gammapy p st t k).value = p.value * p.scale * (1 / 1000000) ∧
    (xml_param_to_gammapy p st t k).error
        = p.error.map (fun e => e * p.scale * (1 / 1000000)) ∧
    (xml_param_to_gammapy p st t k).min = p.min * p.scale * (1 / 1000000) ∧
    (xml_param_to_gammapy p st t k).max = p.max * p.scale * (1 / 1000000) ∧
    (xml_param_to_gammapy p st t k).unit = "TeV" := by
  have hna : ¬canonicalName p.name st = "amplitude" := by
    rcases hn with hc | hc | hc | hc <;> rw [hc] <;> decide
  have hnidx : ¬(canonicalName p.name st = "index" ∨ canonicalName p.name st = "index_1" ∨
      canonicalName p.name st = "index_2" ∨ canonicalName p.name st = "beta") := by
    rcases hn with hc | hc | hc | hc <;> rw [hc] <;> decide
  have hnl : ¬canonicalName p.name st = "lambda_" := by
    rcases hn with hc | hc | hc | hc <;> rw [hc] <;> decide
  have hnalpha : ¬canonicalName p.name st = "alpha" := by
    rcases hn with hc | hc | hc | hc <;> rw [hc] <;> decide
  simp only [xml_param_to_gammapy, scaleEnergyParam]
  rw [if_pos hn]
  rw [scaleAmplitudeParam_id _ _ hna,
    normalizeIndexSign_id _ _ _ (fun hh => hnidx hh.1),
    scaleLambdaParam_id _ _ _ hnl,
    overrideAlphaFrozen_id _ _ _ (fun hh => hnalpha hh.1)]
  exact ⟨rfl, rfl, rfl, rfl, rfl⟩

/-- Characterization of the whole translation for the amplitude source names
(`norm`, `prefactor`, `integral`). -/
theorem xml_param_amplitude_eq (p : XmlParam) (st : String) (t k : Bool)
    (hn : pyLower p.name = "norm" ∨ pyLower p.name = "prefactor" ∨
          pyLower p.name = "integral") :
    (xml_param_to_gammapy p st t k).value = p.value * p.scale * 1000000 ∧
    (xml_param_to_gammapy p st t k).error = p.error.map (fun e => e * p.scale * 1000000) ∧
    (xml_param_to_gammapy p st t k).min = p.min * p.scale * 1000000 ∧
    (xml_param_to_gammapy p st t k).max = p.max * p.scale * 1000000 ∧
    (xml_param_to_gammapy p st t k).unit = "cm-2 s-1 TeV-1" ∧
    (xml_param_to_gammapy p st t k).is_norm = true := by
  have hcan : canonicalName p.name st = "amplitude" := by
    simp only [canonicalName]; rw [if_pos hn]
  have hne : ¬(canonicalName p.name st = "reference" ∨ canonicalName p.name st = "ebreak" ∨
      canonicalName p.name st = "emin" ∨ canonicalName p.name st = "emax") := by
    rw [hcan]; decide
  have hnidx : ¬(canonicalName p.name st = "index" ∨ canonicalName p.name st = "index_1" ∨
      canonicalName p.name st = "index_2" ∨ canonicalName p.name st = "beta") := by
    rw [hcan]; decide
  have hnl : ¬canonicalName p.name st = "lambda_" := by rw [hcan]; decide
  have hnalpha : ¬canonicalName p.name st = "alpha" := by rw [hcan]; decide
  have hunit : unitForRaw (pyLower p.name) = "cm-2 s-1 TeV-1" := by
    unfold unitForRaw; rw [if_pos hn]
  have hisnorm : isNormRaw (pyLower p.name) = true := by
    rcases hn with hc | hc | hc <;> simp [isNormRaw, hc]
  simp only [xml_param_to_gammapy]
  rw [scaleEnergyParam_id _ _ hne]
  simp only [scaleAmplitudeParam]
  rw [if_pos hcan]
  rw [normalizeIndexSign_id _ _ _ (fun hh => hnidx hh.1),
    scaleLambdaParam_id _ _ _ hnl,
    overrideAlphaFrozen_id _ _ _ (fun hh => hnalpha hh.1)]
  exact ⟨rfl, rfl, rfl, rfl, hunit, hisnorm⟩

/-- C3: every energy-like parameter (canonical name reference, ebreak, emin,
emax) is rescaled by `scale * 1e-6` on value, error, min and max and given
unit TeV; every amplitude parameter (source names norm, prefactor, integral)
is rescaled by `scale * 1e6` with unit cm-2 s-1 TeV-1 and is_norm true. -/
theorem energy_amplitude_rescaling (p : XmlParam) (st : String) (t k : Bool) :
    ((canonicalName p.name st = "reference" ∨ canonicalName p.name st = "ebreak" ∨
        canonicalName p.name st = "emin" ∨ canonicalName p.name st = "emax") →
      (xml_param_to_gammapy p st t k).value = p.value * p.scale * (1 / 1000000) ∧
      (xml_param_to_gammapy p st t k).error
          = p.error.map (fun e => e * p.scale * (1 / 1000000)) ∧
      (xml_param_to_gammapy p st t k).min = p.min * p.scale * (1 / 1000000) ∧
      (xml_param_to_gammapy p st t k).max = p.max * p.scale * (1 / 1000000) ∧
      (xml_param_to_gammapy p st t k).unit = "TeV") ∧
    ((pyLower p.name = "norm" ∨ pyLower p.name = "prefactor" ∨
        pyLower p.name = "integral") →
      (xml_param_to_gammapy p st t k).value = p.value * p.scale * 1000000 ∧
      (xml_param_to_gammapy p st t k).error
          = p.error.map (fun e => e * p.scale * 1000000) ∧
      (xml_param_to_gammapy p st t k).min = p.min * p.scale * 1000000 ∧
      (xml_param_to_gammapy p st t k).max = p.max * p.scale * 1000000 ∧
      (xml_param_to_gammapy p st t k).unit = "cm-2 s-1 TeV-1" ∧
      (xml_param_to_gammapy p st t k).is_norm = true) :=
  ⟨fun hn => xml_param_energy_eq p st t k hn,
   fun hn => xml_param_amplitude_eq p st t k hn⟩

/-- C3 witness: raw energy value 1e7 with scale 1 yields 10 TeV, and raw
amplitude 1e-6 with scale 1 yields 1 in cm-2 s-1 TeV-1. -/
theorem energy_amplitude_rescaling_witness :
    (xml_param_to_gammapy
        { name := "Eb", value := 10000000, scale := 1, min := 100, max := 100000000000,
          free := "0" } "PowerLaw" false false).value = 10 ∧
    (xml_param_to_gammapy
        { name := "Eb", value := 10000000, scale := 1, min := 100, max := 100000000000,
          free := "0" } "PowerLaw" false false).unit = "TeV" ∧
    (xml_param_to_gammapy
        { name := "Prefactor", value := 1 / 1000000, scale := 1, min := 0, max := 1,
          free := "1" } "PowerLaw" false false).value = 1 ∧
    (xml_param_to_gammapy
        { name := "Prefactor", value := 1 / 1000000, scale := 1, min := 0, max := 1,
          free := "1" } "PowerLaw" false false).unit = "cm-2 s-1 TeV-1" ∧
    (xml_param_to_gammapy
        { name := "Prefactor", value := 1 / 1000000, scale := 1, min := 0, max := 1,
          free := "1" } "PowerLaw" false false).is_norm = true := by
  have h1 := (energy_amplitude_rescaling
    { name := "Eb", value := 10000000, scale := 1, min := 100, max := 100000000000,
      free := "0" } "PowerLaw" false false).1
    (Or.inl (by simp [canonicalName, pyLower]))
  have h2 := (energy_amplitude_rescaling
    { name := "Prefactor", value := 1 / 1000000, scale := 1, min := 0, max := 1,
      free := "1" } "PowerLaw" false false).2
    (Or.inr (Or.inl (by simp [pyLower])))
  refine ⟨?_, h1.2.2.2.2, ?_, h2.2.2.2.2.1, h2.2.2.2.2.2⟩
  · rw [h1.1]; norm_num
  · rw [h2.1]; norm_num

/-- C4: the `lambda_` parameter follows the family-specific convention: for
PLSuperExpCutoff the reciprocal scaling `1e6 / (value*scale)` with error
`1e6*error/(value*scale)^2` and reordered reciprocal bounds; for
PLSuperExpCutoff2 the direct micro-scaling `value*scale*1e6` without
reordering.  (Stated away from zero denominators, where the Python float
division would raise.) -/
theorem lambda_family_conventions (p : XmlParam) (t k : Bool) :
    (canonicalName p.name "PLSuperExpCutoff" = "lambda_" →
      p.value * p.scale ≠ 0 → p.min * p.scale ≠ 0 → p.max * p.scale ≠ 0 →
      (xml_param_to_gammapy p "PLSuperExpCutoff" t k).value
          = 1000000 / (p.value * p.scale) ∧
      (xml_param_to_gammapy p "PLSuperExpCutoff" t k).error
          = p.error.map (fun e => 1000000 * e / (p.value * p.scale) ^ 2) ∧
      (xml_param_to_gammapy p "PLSuperExpCutoff" t k).min
          = min (1000000 / (p.min * p.scale)) (1000000 / (p.max * p.scale)) ∧
      (xml_param_to_gammapy p "PLSuperExpCutoff" t k).max
          = max (1000000 / (p.min * p.scale)) (1000000 / (p.max * p.scale))) ∧
    (canonicalName p.name "PLSuperExpCutoff2" = "lambda_" →
      (xml_param_to_gammapy p "PLSuperExpCutoff2" t k).value
          = p.value * p.scale * 1000000 ∧
      (xml_param_to_gammapy p "PLSuperExpCutoff2" t k).error
          = p.error.map (fun e => e * p.scale * 1000000) ∧
      (xml_param_to_gammapy p "PLSuperExpCutoff2" t k).min
          = p.min * p.scale * 1000000 ∧
      (xml_param_to_gammapy p "PLSuperExpCutoff2" t k).max
          = p.max * p.scale * 1000000) := by
  constructor
  · intro hn hv0 hm0 hx0
    have hne : ¬(canonicalName p.name "PLSuperExpCutoff" = "reference" ∨
        canonicalName p.name "PLSuperExpCutoff" = "ebreak" ∨
        canonicalName p.name "PLSuperExpCutoff" = "emin" ∨
        canonicalName p.name "PLSuperExpCutoff" = "emax") := by rw [hn]; decide
    have hna : ¬canonicalName p.name "PLSuperExpCutoff" = "amplitude" := by
      rw [hn]; decide
    have hnidx : ¬(canonicalName p.name "PLSuperExpCutoff" = "index" ∨
        canonicalName p.name "PLSuperExpCutoff" = "index_1" ∨
        canonicalName p.name "PLSuperExpCutoff" = "index_2" ∨
        canonicalName p.name "PLSuperExpCutoff" = "beta") := by rw [hn]; decide
    have hnalpha : ¬canonicalName p.name "PLSuperExpCutoff" = "alpha" := by
      rw [hn]; decide
    simp only [xml_param_to_gammapy]
    rw [scaleEnergyParam_id _ _ hne, scaleAmplitudeParam_id _ _ hna,
      normalizeIndexSign_id _ _ _ (fun hh => hnidx hh.1)]
    simp only [scaleLambdaParam]
    rw [if_pos hn, if_true]
    rw [overrideAlphaFrozen_id _ _ _ (fun hh => hnalpha hh.1)]
    exact ⟨rfl, rfl, rfl, rfl⟩
  · intro hn
    have hne : ¬(canonicalName p.name "PLSuperExpCutoff2" = "reference" ∨
        canonicalName p.name "PLSuperExpCutoff2" = "ebreak" ∨
        canonicalName p.name "PLSuperExpCutoff2" = "emin" ∨
        canonicalName p.name "PLSuperExpCutoff2" = "emax") := by rw [hn]; decide
    have hna : ¬canonicalName p.name "PLSuperExpCutoff2" = "amplitude" := by
      rw [hn]; decide
    have hnidx : ¬(canonicalName p.name "PLSuperExpCutoff2" = "index" ∨
        canonicalName p.name "PLSuperExpCutoff2" = "index_1" ∨
        canonicalName p.name "PLSuperExpCutoff2" = "index_2" ∨
        canonicalName p.name "PLSuperExpCutoff2" = "beta") := by rw [hn]; decide
    have hnalpha : ¬canonicalName p.name "PLSuperExpCutoff2" = "alpha" := by
      rw [hn]; decide
    simp only [xml_param_to_gammapy]
    rw [scaleEnergyParam_id _ _ hne, scaleAmplitudeParam_id _ _ hna,
      normalizeIndexSign_id _ _ _ (fun hh => hnidx hh.1)]
    simp only [scaleLambdaParam]
    rw [if_pos hn,
      if_neg (by decide : ¬("PLSuperExpCutoff2" : String) = "PLSuperExpCutoff"), if_true]
    rw [overrideAlphaFrozen_id _ _ _ (fun hh => hnalpha hh.1)]
    exact ⟨rfl, rfl, rfl, rfl⟩

/-- C4 witness: cutoff 2000 under PLSuperExpCutoff becomes lambda 500 with
propagated error 25; expfactor 3 under PLSuperExpCutoff2 becomes 3e6. -/
theorem lambda_family_conventions_witness :
    (xml_param_to_gammapy
        { name := "Cutoff", value := 2000, scale := 1, min := 1000, max := 100000,
          free := "0", error := some 100 } "PLSuperExpCutoff" false false).value = 500 ∧
    (xml_param_to_gammapy
        { name := "Cutoff", value := 2000, scale := 1, min := 1000, max := 100000,
          free := "0", error := some 100 } "PLSuperExpCutoff" false false).error
        = some 25 ∧
    (xml_param_to_gammapy
        { name := "Expfactor", value := 3, scale := 1, min := 0, max := 10,
          free := "1" } "PLSuperExpCutoff2" false false).value = 3000000 := by
  have h1 := (lambda_family_conventions
    { name := "Cutoff", value := 2000, scale := 1, min := 1000, max := 100000,
      free := "0", error := some 100 } false false).1
    (by simp [canonicalName, pyLower]) (by norm_num) (by norm_num) (by norm_num)
  have h2 := (lambda_family_conventions
    { name := "Expfactor", value := 3, scale := 1, min := 0, max := 10,
      free := "1" } false false).2
    (by simp [canonicalName, pyLower])
  refine ⟨?_, ?_, ?_⟩
  · rw [h1.1]; norm_num
  · rw [h1.2.1]; norm_num
  · rw [h2.1]; norm_num

/-- C5 counterexample: for the parameter with source name `index2` under
PLSuperExpCutoff (canonical name `alpha`) with free flag "0" and
is_target=true, the output frozen flag is true, while the claimed rule
`(free == "0") AND (not is_target)` gives false; `index2` is neither `scale`
nor `eb`, so the claim's only stated exception does not apply. -/
theorem frozen_flag_claim_counterexample :
    (xml_param_to_gammapy
        { name := "index2", value := 1, scale := 1, min := 0, max := 2, free := "0" }
        "PLSuperExpCutoff" true false).frozen = true ∧
    ((({ name := "index2", value := 1, scale := 1, min := 0, max := 2,
         free := "0" } : XmlParam).free == "0") && !true) = false := by
  refine ⟨?_, by decide⟩
  rw [xml_param_frozen_eq]
  simp [canonicalName, pyLower]

/-- C5 (amended): the output frozen flag equals `(free == "0") AND (not
is_target)`, except for parameters whose source name is `scale` or `eb`
(frozen = `(free == "0")` unconditionally) AND except for the parameter
whose canonical name is `alpha` under the PLSuperExpCutoff or
PLSuperExpCutoff2 family (frozen = `(free == "0")` unconditionally as
well). -/
theorem frozen_flag_rule (p : XmlParam) (st : String) (t k : Bool) :
    (xml_param_to_gammapy p st t k).frozen =
      if canonicalName p.name st = "alpha"
          ∧ (st = "PLSuperExpCutoff" ∨ st = "PLSuperExpCutoff2")
      then (p.free == "0")
      else if pyLower p.name = "scale" ∨ pyLower p.name = "eb" then (p.free == "0")
      else (p.free == "0") && !t :=
  xml_param_frozen_eq p st t k

/-- C10: for the parameter with source name `index2` under the
PLSuperExpCutoff or PLSuperExpCutoff2 family, the canonical name is `alpha`
and frozen equals `(free == "0")` unconditionally, even when
is_target=true. -/
theorem index2_alpha_frozen (p : XmlParam) (st : String) (t k : Bool)
    (hn : pyLower p.name = "index2")
    (hst : st = "PLSuperExpCutoff" ∨ st = "PLSuperExpCutoff2") :
    (xml_param_to_gammapy p st t k).name = "alpha" ∧
    (xml_param_to_gammapy p st t k).frozen = (p.free == "0") := by
  have hcan : canonicalName p.name st = "alpha" := by
    rcases hst with rfl | rfl <;> simp [canonicalName, hn]
  refine ⟨by rw [xml_param_name_eq, hcan], ?_⟩
  rw [xml_param_frozen_eq, if_pos ⟨hcan, hst⟩]

/-- C10 witness: a concrete `index2` parameter of a PLSuperExpCutoff2 target
source with free flag "0" is frozen. -/
theorem index2_alpha_frozen_witness :
    (xml_param_to_gammapy
        { name := "Index2", value := 2/3, scale := 1, min := 0, max := 2, free := "0" }
        "PLSuperExpCutoff2" true false).name = "alpha" ∧
    (xml_param_to_gammapy
        { name := "Index2", value := 2/3, scale := 1, min := 0, max := 2, free := "0" }
        "PLSuperExpCutoff2" true false).frozen
      = (({ name := "Index2", value := 2/3, scale := 1, min := 0, max := 2,
            free := "0" } : XmlParam).free == "0") :=
  index2_alpha_frozen
    { name := "Index2", value := 2/3, scale := 1, min := 0, max := 2, free := "0" }
    "PLSuperExpCutoff2" true false (by simp [pyLower]) (Or.inr rfl)

/-! ### Python string helpers (structural, so they evaluate) -/

/-- Python's `str.replace` on char lists: replace all non-overlapping
occurrences left to right.  The fuel argument (the list length suffices,
every step consumes at least one char) makes the recursion structural. -/
def pyReplaceAux (pat rep : List Char) : Nat → List Char → List Char
  | _, [] => []
  | 0, l => l
  | fuel + 1, c :: cs =>
    if pat ≠ [] ∧ pat = (c :: cs).take pat.length then
      rep ++ pyReplaceAux pat rep fuel ((c :: cs).drop pat.length)
    else c :: pyReplaceAux pat rep fuel cs

/-- Python's `str.replace`. -/
def pyReplace (s pat rep : String) : String :=
  String.mk (pyReplaceAux pat.data rep.data s.data.length s.data)

/-- Python's `str.split(sep)` on char lists, with fuel as above. -/
def pySplitAux (sep : List Char) : Nat → List Char → List Char → List (List Char)
  | _, acc, [] => [acc.reverse]
  | 0, acc, l => [acc.reverse ++ l]
  | fuel + 1, acc, c :: cs =>
    if sep ≠ [] ∧ sep = (c :: cs).take sep.length then
      acc.reverse :: pySplitAux sep fuel [] ((c :: cs).drop sep.length)
    else pySplitAux sep fuel (c :: acc) cs

/-- Python's `str.split(sep)`. -/
def pySplit (s sep : String) : List String :=
  (pySplitAux sep.data s.data.length [] s.data).map String.mk

/-- Python's `s[:-n]`. -/
def pyDropRight (s : String) (n : Nat) : String :=
  String.mk (s.data.take (s.data.length - n))

/-- The name normalization used for target identification (target.py lines
565-566): drop underscores and spaces. -/
def normalizeName (s : String) : String := pyReplace (pyReplace s "_" "") " " ""

/-- `source["spectrum"]["@type"].split("EblAtten::")[-1]` (target.py line
562). -/
def splitEblAtten (s : String) : String := (pySplit s "EblAtten::").getLastD ""

/-- Python's `"EblAtten" in s` substring test. -/
def containsEblAtten (s : String) : Bool := (pySplit s "EblAtten").length > 1

/-- `pathlib.Path.name`: the final path component. -/
def pathName (p : String) : String := (pySplit p "/").getLastD ""

/-- The replacement EBL reference derived from a custom EBL file name
(target.py lines 242 and 628): `filename.name[:-8].replace("-", "_")`. -/
def eblRefFromFilename (filename : String) : String :=
  pyReplace (pyDropRight (pathName filename) 8) "-" "_"

/-! ### Configuration data model (the pydantic classes of target.py, with
their source defaults) -/

/-- target.py `EBLAbsorptionModel` config block. -/
structure EBLAbsorptionModel where
  filename : String := "."
  reference : String := "dominguez"
  type : String := "EBLAbsorptionNormSpectralModel"
  redshift : ℚ := 2 / 5
  alpha_norm : ℚ := 1
deriving DecidableEq, Repr

/-- target.py `ModelParams`. -/
structure ModelParams where
  name : String := ""
  value : ℚ := 1
  unit : String := " "
  error : ℚ := 1 / 10
  min : ℚ := 1 / 10
  max : ℚ := 10
  frozen : Bool := true
deriving DecidableEq, Repr

/-- The shape shared by `SpectralModelConfig` and `SpatialModelConfig` that
`config_to_dict` duck-types on (it reads only `.type` and `.parameters`). -/
structure ModelConfigBase where
  type : String := ""
  parameters : List ModelParams := [{}]
deriving DecidableEq, Repr

/-- target.py `SpectralModelConfig`. -/
structure SpectralModelConfig extends ModelConfigBase where
  ebl_abs : EBLAbsorptionModel := {}
deriving DecidableEq, Repr

/-- target.py `SpatialModelConfig`. -/
structure SpatialModelConfig extends ModelConfigBase
deriving DecidableEq, Repr

/-- target.py `SkyModelComponent`. -/
structure SkyModelComponent where
  name : String := ""
  type : String := "SkyModel"
  spectral : SpectralModelConfig := {}
  spatial : SpatialModelConfig := {}
deriving DecidableEq, Repr

/-- Stand-in for `SkyCoordConfig` (asgardpy.data.geom is not among the
analysed sources; the assembler only carries this field, never reads it).
Modelled from the spec: the TargetSpec's sky position. -/
structure SkyCoordConfig where
  frame : String := "icrs"
  lon : ℚ := 0
  lat : ℚ := 0
deriving DecidableEq, Repr

/-- target.py `Target` (the TargetSpec). -/
structure Target where
  source_name : String := ""
  sky_position : SkyCoordConfig := {}
  use_uniform_position : Bool := true
  models_file : String := "."
  extended : Bool := false
  components : List SkyModelComponent := [{}]
  covariance : String := ""
  from_3d : Bool := false
deriving DecidableEq, Repr

/-- One parameter dict produced by `config_to_dict`. -/
structure ParDict where
  name : String
  value : ℚ
  unit : String
  error : ℚ
  min : ℚ
  max : ℚ
  frozen : Bool
deriving DecidableEq, Repr

/-- The model dict produced by `config_to_dict`. -/
structure ModelDict where
  type : String
  parameters : List ParDict
deriving DecidableEq, Repr

/-- target.py `config_to_dict`. -/
def config_to_dict (model_config : ModelConfigBase) : ModelDict :=
  { type := model_config.type
    parameters := model_config.parameters.map (fun par =>
      { name := par.name, value := par.value, unit := par.unit, error := par.error,
        min := par.min, max := par.max, frozen := par.frozen }) }

/-! ### Symbolic gammapy model objects -/

/-- Symbolic representation of the spectral-model objects the engine
builds: which class was instantiated, from which data. -/
inductive SpectralRep where
  | eclpFromDict (d : ModelDict)
  | registryFromDict (type : String) (d : ModelDict)
  | catalog (family : String) (params : List GammapyParam)
  | eblBuiltin (reference : String) (redshift : ℚ)
  | eblFile (filename : String) (redshift : ℚ)
  | withAlphaNorm (alpha_norm : ℚ) (m : SpectralRep)
  | prod (m1 m2 : SpectralRep)
deriving DecidableEq, Repr

/-- Symbolic representation of the spatial-model objects. -/
inductive SpatialRep where
  | pointGal (lon0 lat0 : String)
  | templateMap (file_path : String)
  | radialGaussian (lon0 lat0 sigma : String)
  | fromDict (type : String) (d : ModelDict)
deriving DecidableEq, Repr

/-- A spatial model instance plus whether `freeze()` was called on it. -/
structure SpatialFinal where
  rep : SpatialRep
  frozen : Bool
deriving DecidableEq, Repr

/-- gammapy `SkyModel` as this engine uses it. -/
structure SkyModelRep where
  name : String
  spectral : Option SpectralRep
  spatial : Option SpatialFinal
  datasets_names : Option (List String) := none
deriving DecidableEq, Repr

/-! ### Model generation from the structured config -/

/-- target.py `read_models_from_asgardpy_config`.  Returns the spectral and
spatial models together with the (possibly mutated) config: when a custom
EBL file exists, `ebl_model.reference` is overwritten in place on the config
object (target.py line 242), so the config is threaded through explicitly.
The `spectral_model.name = config.source_name` attribute assignment is not
tracked separately; the enclosing SkyModel carries the name.  Raises
IndexError when `config.components` is empty. -/
def read_models_from_asgardpy_config (isF : String → Bool) (config : Target) :
    Except PyError (SpectralRep × Option SpatialRep × Target) :=
  match config.components with
  | [] => .error .indexError
  | model_config :: rest =>
    let model1 : SpectralRep :=
      if model_config.spectral.type = "ExpCutoffLogParabolaSpectralModel" then
        .eclpFromDict (config_to_dict model_config.spectral.toModelConfigBase)
      else
        .registryFromDict model_config.spectral.type
          (config_to_dict model_config.spectral.toModelConfigBase)
    let withEbl : SpectralRep × Target :=
      if model_config.spectral.ebl_abs.reference ≠ "" then
        let ebl_model := model_config.spectral.ebl_abs
        let ebl2 : SpectralRep × Target :=
          if isF ebl_model.filename then
            (SpectralRep.eblFile ebl_model.filename ebl_model.redshift,
             { config with components :=
                { model_config with spectral :=
                  { model_config.spectral with ebl_abs :=
                    { ebl_model with
                      reference := eblRefFromFilename ebl_model.filename } } } :: rest })
          else
            (SpectralRep.eblBuiltin ebl_model.reference ebl_model.redshift, config)
        let model2 :=
          if ebl_model.alpha_norm ≠ 0 then SpectralRep.withAlphaNorm ebl_model.alpha_norm ebl2.1
          else ebl2.1
        (SpectralRep.prod model1 model2, ebl2.2)
      else
        (model1, config)
    let spatial_model : Option SpatialRep :=
      if model_config.spatial.type ≠ "" then
        some (.fromDict model_config.spatial.type
          (config_to_dict model_config.spatial.toModelConfigBase))
      else none
    .ok (withEbl.1, spatial_model, withEbl.2)

/-- Overwrite the EBL reference tag of the first component of a config (the
only field the assembler ever mutates). -/
def setHeadEblReference (config : Target) (r : String) : Target :=
  match config.components with
  | [] => config
  | mc :: rest =>
    { config with components :=
        { mc with spectral := { mc.spectral with ebl_abs :=
            { mc.spectral.ebl_abs with reference := r } } } :: rest }

/-! ### The legacy-catalog spatial translator -/

/-- One parameter record of an XML spatial block. -/
structure XmlSpatialParam where
  name : String
  value : String
deriving DecidableEq, Repr

/-- The spatial block of an XML source (`@type`, `@file`, parameters). -/
structure XmlSpatialModel where
  type : String
  file : String := ""
  parameter : List XmlSpatialParam := []
deriving DecidableEq, Repr

/-- The value left by the `for par_ in spatial_pars` loops: the value of the
LAST parameter with the given name (later assignments win). -/
def lastParamValue (pars : List XmlSpatialParam) (n : String) : Option String :=
  (pars.reverse.find? (fun q => q.name == n)).map (fun q => q.value)

/-- target.py `xml_spatial_model_to_gammapy`.  `SkyDirFunction` becomes a
point model at the fk5 position transformed to the galactic frame (the
astropy transform is kept symbolic in `pointGal`); `SpatialMap` loads the
template under `Templates/` of the auxiliary path; `RadialGaussian` builds a
Gaussian in the fk5 frame.  A missing RA/DEC/Sigma parameter or an unknown
type tag leaves the local variables unbound in the source (NameError). -/
def xml_spatial_model_to_gammapy (aux_path : String) (xsm : XmlSpatialModel) :
    Except PyError SpatialRep :=
  if xsm.type = "SkyDirFunction" then
    match lastParamValue xsm.parameter "RA", lastParamValue xsm.parameter "DEC" with
    | some ra, some dec => .ok (.pointGal (ra ++ " deg") (dec ++ " deg"))
    | _, _ => .error .nameError
  else if xsm.type = "SpatialMap" then
    let file_name := (pySplit xsm.file "/").getLastD ""
    .ok (.templateMap (aux_path ++ "/Templates/" ++ file_name))
  else if xsm.type = "RadialGaussian" then
    match lastParamValue xsm.parameter "RA", lastParamValue xsm.parameter "DEC",
        lastParamValue xsm.parameter "Sigma" with
    | some ra, some dec, some sg =>
        .ok (.radialGaussian (ra ++ " deg") (dec ++ " deg") (sg ++ " deg"))
    | _, _, _ => .error .nameError
  else .error .nameError

/-! ### The source model assembler -/

/-- A legacy-catalog (XML) source entry: name, spectrum type tag, spectral
parameter records, spatial block. -/
structure XmlSource where
  name : String
  spectrumType : String
  spectrum : List XmlParam
  spatialModel : XmlSpatialModel
deriving DecidableEq, Repr

/-- target.py lines 588-606: the spectral class chosen for a catalog entry
and the `ebl_atten_pl` flag (a LogParabola carrying the `EblAtten` marker is
replaced by a PowerLaw whose index signs are kept). -/
def catalogSpectrumFamily (spectrum_type full_type : String) : String × Bool :=
  let fin :=
    if spectrum_type = "PLSuperExpCutoff" ∨ spectrum_type = "PLSuperExpCutoff2" then
      "ExpCutoffPowerLawSpectralModel"
    else if spectrum_type = "PLSuperExpCutoff4" then
      "SuperExpCutoffPowerLaw4FGLDR3SpectralModel"
    else spectrum_type ++ "SpectralModel"
  if spectrum_type = "LogParabola" then
    if containsEblAtten full_type then ("PowerLawSpectralModel", true)
    else ("LogParabolaSpectralModel", false)
  else (fin, false)

/-- Whether any spectral parameter record is not one of the diffuse models
(target.py line 589): only then is a catalog spectral model instantiated. -/
def hasNonDiffuse (spectrum : List XmlParam) : Bool :=
  spectrum.any (fun sp => sp.name != "GalDiffModel" && sp.name != "IsoDiffModel")

/-- The normalized-name target test of target.py lines 565-578. -/
def isSourceTarget (config_target : Target) (source : XmlSource) : Bool :=
  normalizeName source.name == normalizeName config_target.source_name

/-- target.py lines 586-633: build the spectral model from the catalog entry
(when it was not taken from the config), multiplying in the EBL absorption
model for the target source, which also mutates the config's EBL reference
tag when a custom EBL file exists (line 628).  Exceptions modelled:
AttributeError (the `setattr` loop over a non-empty parameter list while the
spectral model is still `None`), IndexError (`components[0]` on an empty
list), TypeError (`None * ebl_spectral_model`). -/
def catalogSpectral (isF : String → Bool) (config1 : Target) (source : XmlSource)
    (is_source_target : Bool) : Except PyError (Option SpectralRep × Target) :=
  let spectrum_type := splitEblAtten source.spectrumType
  let famFlag := catalogSpectrumFamily spectrum_type source.spectrumType
  let params_list :=
    xml_spectral_model_to_gammapy_params source.spectrum spectrum_type
      is_source_target famFlag.2
  let base : Option SpectralRep :=
    if hasNonDiffuse source.spectrum then some (.catalog famFlag.1 params_list) else none
  if base.isNone && !params_list.isEmpty then .error .attributeError
  else
    match config1.components with
    | [] => .error .indexError
    | mc :: _ =>
      -- `ebl_absorption_included = config_spectral.ebl_abs is not None`
      -- always holds: the field is not optional in the config class.
      if is_source_target then
        let eblPair : SpectralRep × Target :=
          if isF mc.spectral.ebl_abs.filename then
            (SpectralRep.eblFile mc.spectral.ebl_abs.filename mc.spectral.ebl_abs.redshift,
             setHeadEblReference config1 (eblRefFromFilename mc.spectral.ebl_abs.filename))
          else
            (SpectralRep.eblBuiltin mc.spectral.ebl_abs.reference
               mc.spectral.ebl_abs.redshift, config1)
        match base with
        | some b => .ok (some (.prod b eblPair.1), eblPair.2)
        | none => .error .typeError
      else .ok (base, config1)

/-- target.py `create_source_skymodel`.  The config is threaded through
because of the in-place EBL-reference mutation (lines 242 and 628).  The
spectral model comes from the config (via
`read_models_from_asgardpy_config`) exactly when the entry is the target
and `from_3d` is false; otherwise from the catalog entry.  The spatial
model always comes from the catalog entry's spatial block and is frozen.
ValueError models `SkyModel` built with no spectral model. -/
def create_source_skymodel (isF : String → Bool) (config_target : Target)
    (source : XmlSource) (aux_path : String) :
    Except PyError (SkyModelRep × Bool × Target) :=
  let is_source_target := isSourceTarget config_target source
  let source_name := if is_source_target then config_target.source_name else source.name
  let step1 : Except PyError (Option SpectralRep × Target) :=
    if is_source_target && !config_target.from_3d then
      (read_models_from_asgardpy_config isF config_target).map (fun r => (some r.1, r.2.2))
    else .ok (none, config_target)
  match step1 with
  | .error e => .error e
  | .ok (spectral0, config1) =>
    let step2 : Except PyError (Option SpectralRep × Target) :=
      match spectral0 with
      | some sm => .ok (some sm, config1)
      | none => catalogSpectral isF config1 source is_source_target
    match step2 with
    | .error e => .error e
    | .ok (spectralF, config2) =>
      match xml_spatial_model_to_gammapy aux_path source.spatialModel with
      | .error e => .error e
      | .ok spatial_model =>
        match spectralF with
        | some sm =>
          .ok ({ name := source_name, spectral := some sm,
                 spatial := some { rep := spatial_model, frozen := true },
                 datasets_names := none }, is_source_target, config2)
        | none => .error .valueError

/-! ### The model-to-dataset binder -/

/-- gammapy `Datasets`: the dataset names and the attached model set. -/
structure Datasets where
  names : List String
  models : Option (List SkyModelRep) := none
deriving DecidableEq, Repr

/-- The `models` argument of `set_models`: a `DatasetModels`/list, a path
(read via `Models.read`), or anything else (including the default
`None`). -/
inductive ModelsArg where
  | modelsList (ms : List SkyModelRep)
  | path (p : String)
  | other
deriving DecidableEq, Repr

/-- gammapy `models[name].datasets_names = dnl`: assign the dataset-name
list to the first model with the given name, KeyError when absent. -/
def assignToNamed (ms : List SkyModelRep) (n : String) (dnl : List String) :
    Except PyError (List SkyModelRep) :=
  match ms with
  | [] => .error (.keyError n)
  | m :: rest =>
    if m.name = n then .ok ({ m with datasets_names := some dnl } :: rest)
    else (assignToNamed rest n dnl).map (fun r => m :: r)

/-- The model-resolution stage of target.py `set_models` (lines 167-181): a
`DatasetModels` or list is wrapped as is, a path is read with `Models.read`,
and otherwise a single SkyModel is built from the config when it has
components; TypeError is raised when it has none. -/
def resolveSetModels (readFile : String → List SkyModelRep) (isF : String → Bool)
    (config : Target) (models : ModelsArg) : Except PyError (List SkyModelRep) :=
  match models with
  | .modelsList ms => .ok ms
  | .path p => .ok (readFile p)
  | .other =>
    if config.components.length > 0 then
      match read_models_from_asgardpy_config isF config with
      | .ok (spectral_model, spatial_model, _) =>
        .ok [{ name := config.source_name, spectral := some spectral_model,
               spatial := spatial_model.map (fun r => { rep := r, frozen := false }),
               datasets_names := none }]
      | .error e => .error e
    else .error .typeError

/-- target.py `set_models`.  On error the result carries the datasets object
as it stood at the raise point, making the mutation frame explicit: the
only assignment to `datasets.models` is the final statement. -/
def set_models (readFile : String → List SkyModelRep) (isF : String → Bool)
    (config : Target) (datasets : Datasets)
    (datasets_name_list : Option (List String))
    (models : ModelsArg) (target_source_name : Option String) :
    Except (PyError × Datasets) Datasets :=
  match resolveSetModels readFile isF config models with
  | .error e => .error (e, datasets)
  | .ok ms =>
    let dnl := datasets_name_list.getD datasets.names
    let target := target_source_name.getD config.source_name
    if ms.length > 1 then
      match assignToNamed ms target dnl with
      | .error e => .error (e, datasets)
      | .ok ms2 => .ok { datasets with models := some ms2 }
    else
      .ok { datasets with
              models := some (ms.map (fun m => { m with datasets_names := some dnl })) }

/-- Characterization of `assignToNamed`: success splits the list around the
first model carrying the name; only that model's dataset-name list changes. -/
theorem assignToNamed_eq (ms : List SkyModelRep) (n : String) (dnl : List String)
    (ms2 : List SkyModelRep) (h : assignToNamed ms n dnl = .ok ms2) :
    ∃ pre mdl post, ms = pre ++ mdl :: post ∧ (∀ x ∈ pre, x.name ≠ n) ∧ mdl.name = n ∧
      ms2 = pre ++ { mdl with datasets_names := some dnl } :: post := by
  induction ms generalizing ms2 with
  | nil => cases h
  | cons m rest ih =>
    by_cases hm : m.name = n
    · rw [assignToNamed, if_pos hm] at h
      simp only [Except.ok.injEq] at h
      exact ⟨[], m, rest, rfl, by simp, hm, h.symm⟩
    · rw [assignToNamed, if_neg hm] at h
      cases hr : assignToNamed rest n dnl with
      | error e => rw [hr] at h; simp [Except.map] at h
      | ok r =>
        rw [hr] at h
        simp only [Except.map, Except.ok.injEq] at h
        obtain ⟨pre, mdl, post, h1, h2, h3, h4⟩ := ih r hr
        refine ⟨m :: pre, mdl, post, by rw [h1]; rfl, ?_, h3, by rw [← h, h4]; rfl⟩
        intro x hx
        rcases List.mem_cons.mp hx with rfl | hx
        · exact hm
        · exact h2 x hx

/-- C6: binding with an explicit model collection: with more than one model
the dataset-name list is assigned only to the (first) model whose name is
the target source name, all other models unchanged; with exactly one model
the sole model receives the list; and when no explicit dataset-name list is
supplied, the dataset collection's full name list is used (the
`dnlOpt.getD ds.names` below). -/
theorem set_models_binding (readFile : String → List SkyModelRep) (isF : String → Bool)
    (cfg : Target) (ds : Datasets) (dnlOpt : Option (List String))
    (ms : List SkyModelRep) (tname : String) (d2 : Datasets)
    (hok : set_models readFile isF cfg ds dnlOpt (.modelsList ms) (some tname)
      = .ok d2) :
    (ms.length > 1 →
      ∃ pre mdl post, ms = pre ++ mdl :: post ∧ (∀ x ∈ pre, x.name ≠ tname) ∧
        mdl.name = tname ∧
        d2 = { ds with models := some (pre ++
          { mdl with datasets_names := some (dnlOpt.getD ds.names) } :: post) }) ∧
    (ms.length = 1 →
      d2 = { ds with models := some (ms.map (fun m =>
        { m with datasets_names := some (dnlOpt.getD ds.names) })) }) := by
  simp only [set_models, resolveSetModels, Option.getD_some] at hok
  by_cases hlen : ms.length > 1
  · rw [if_pos hlen] at hok
    cases ha : assignToNamed ms tname (dnlOpt.getD ds.names) with
    | error e => rw [ha] at hok; cases hok
    | ok ms2 =>
      rw [ha] at hok
      simp only [Except.ok.injEq] at hok
      constructor
      · intro _
        obtain ⟨pre, mdl, post, h1, h2, h3, h4⟩ :=
          assignToNamed_eq ms tname (dnlOpt.getD ds.names) ms2 ha
        exact ⟨pre, mdl, post, h1, h2, h3, by rw [← hok, h4]⟩
      · intro h1; omega
  · rw [if_neg hlen] at hok
    simp only [Except.ok.injEq] at hok
    exact ⟨fun hw => absurd hw hlen, fun _ => hok.symm⟩

/-- C6 witness: a two-model collection bound with an explicit dataset-name
list assigns it only to the model named like the target. -/
theorem set_models_binding_witness :
    ∃ pre mdl post,
      ([⟨"bg", none, none, some ["x"]⟩, ⟨"T", none, none, none⟩] : List SkyModelRep)
        = pre ++ mdl :: post ∧
      (∀ x ∈ pre, x.name ≠ "T") ∧ mdl.name = "T" ∧
      ({ names := ["d1", "d2"], models := some [⟨"bg", none, none, some ["x"]⟩,
          ⟨"T", none, none, some ["d1", "d2"]⟩] } : Datasets)
        = { names := ["d1", "d2"],
            models := some (pre ++ { mdl with
              datasets_names := some ((none : Option (List String)).getD ["d1", "d2"]) }
              :: post) } := by
  have H := set_models_binding (fun _ => []) (fun _ => false) {} { names := ["d1", "d2"] }
    none [⟨"bg", none, none, some ["x"]⟩, ⟨"T", none, none, none⟩] "T"
    { names := ["d1", "d2"], models := some [⟨"bg", none, none, some ["x"]⟩,
        ⟨"T", none, none, some ["d1", "d2"]⟩] } (by rfl)
  exact H.1 (by decide)

/-- C7: `set_models` raises TypeError exactly in the unsupported-input case
(the models argument is neither a DatasetModels/list nor a path, and the
config has no component to build a model from), and every raise leaves the
dataset collection untouched: the datasets carried out of any error are the
input datasets, models included. -/
theorem set_models_type_error_frame (readFile : String → List SkyModelRep)
    (isF : String → Bool) (cfg : Target) (ds : Datasets)
    (dnlOpt : Option (List String)) (marg : ModelsArg) (tname : Option String) :
    (marg = ModelsArg.other → cfg.components = [] →
      set_models readFile isF cfg ds dnlOpt marg tname = .error (.typeError, ds)) ∧
    (∀ e d2, set_models readFile isF cfg ds dnlOpt marg tname = .error (e, d2) →
      d2 = ds) := by
  constructor
  · rintro rfl hc
    simp [set_models, resolveSetModels, hc]
  · intro e d2 h
    simp only [set_models] at h
    cases hres : resolveSetModels readFile isF cfg marg with
    | error e2 =>
      rw [hres] at h
      simp only [Except.error.injEq, Prod.mk.injEq] at h
      exact h.2.symm
    | ok ms =>
      rw [hres] at h
      dsimp only at h
      by_cases hlen : ms.length > 1
      · rw [if_pos hlen] at h
        cases ha : assignToNamed ms (tname.getD cfg.source_name) (dnlOpt.getD ds.names) with
        | error e3 =>
          rw [ha] at h
          simp only [Except.error.injEq, Prod.mk.injEq] at h
          exact h.2.symm
        | ok ms2 => rw [ha] at h; cases h
      · rw [if_neg hlen] at h; cases h

/-- C7 witness: with `models=None` (an unsupported type) and a config with
no components, set_models fails with TypeError and the datasets object is
unchanged. -/
theorem set_models_type_error_frame_witness :
    set_models (fun _ => []) (fun _ => false) { components := [] }
        { names := ["d1"] } none .other none
      = .error (.typeError, { names := ["d1"] }) ∧
    ({ names := ["d1"] } : Datasets) = { names := ["d1"] } := by
  have H := set_models_type_error_frame (fun _ => []) (fun _ => false)
    { components := [] } { names := ["d1"] } none .other none
  have h1 := H.1 rfl rfl
  exact ⟨h1, H.2 _ _ h1⟩

/-- Frame lemma for `read_models_from_asgardpy_config`: the returned config
is the input config, possibly with the first component's EBL reference tag
overwritten; the config is unchanged whenever the custom EBL filename does
not resolve to a file. -/
theorem read_models_config_frame (isF : String → Bool) (cfg : Target)
    (s : SpectralRep) (spat : Option SpatialRep) (cfg2 : Target)
    (h : read_models_from_asgardpy_config isF cfg = .ok (s, spat, cfg2))
    (mc : SkyModelComponent) (rest : List SkyModelComponent)
    (hcomp : cfg.components = mc :: rest) :
    (cfg2 = cfg ∨
      cfg2 = setHeadEblReference cfg (eblRefFromFilename mc.spectral.ebl_abs.filename)) ∧
    (isF mc.spectral.ebl_abs.filename = false → cfg2 = cfg) := by
  simp only [read_models_from_asgardpy_config, hcomp] at h
  by_cases href : mc.spectral.ebl_abs.reference ≠ ""
  · by_cases hfile : isF mc.spectral.ebl_abs.filename
    · simp only [hfile, if_true, if_pos href] at h
      simp only [Except.ok.injEq, Prod.mk.injEq] at h
      refine ⟨Or.inr ?_, fun hcontra => by rw [hfile] at hcontra; cases hcontra⟩
      rw [← h.2.2]
      simp only [setHeadEblReference, hcomp]
    · simp only [Bool.not_eq_true] at hfile
      simp only [hfile, Bool.false_eq_true, if_false, if_pos href] at h
      simp only [Except.ok.injEq, Prod.mk.injEq] at h
      exact ⟨Or.inl h.2.2.symm, fun _ => h.2.2.symm⟩
  · simp only [if_neg href] at h
    simp only [Except.ok.injEq, Prod.mk.injEq] at h
    exact ⟨Or.inl h.2.2.symm, fun _ => h.2.2.symm⟩

/-- Frame lemma for `catalogSpectral`: the returned config is the input
config, possibly with the first component's EBL reference tag overwritten
(which requires the custom EBL filename to resolve). -/
theorem catalogSpectral_config (isF : String → Bool) (cfg1 : Target) (src : XmlSource)
    (tgt : Bool) (sF : Option SpectralRep) (cfg2 : Target)
    (h : catalogSpectral isF cfg1 src tgt = .ok (sF, cfg2))
    (mc : SkyModelComponent) (rest : List SkyModelComponent)
    (hcomp : cfg1.components = mc :: rest) :
    (cfg2 = cfg1 ∨
      cfg2 = setHeadEblReference cfg1 (eblRefFromFilename mc.spectral.ebl_abs.filename)) ∧
    (isF mc.spectral.ebl_abs.filename = false → cfg2 = cfg1) := by
  simp only [catalogSpectral, hcomp] at h
  by_cases hnd : hasNonDiffuse src.spectrum
  · simp only [hnd, if_true, Option.isNone_some, Bool.false_and, Bool.false_eq_true,
      if_false] at h
    by_cases htgt : tgt = true
    · simp only [htgt, if_true] at h
      by_cases hfile : isF mc.spectral.ebl_abs.filename
      · simp only [hfile, if_true] at h
        simp only [Except.ok.injEq, Prod.mk.injEq] at h
        refine ⟨Or.inr h.2.symm, fun hcontra => by rw [hfile] at hcontra; cases hcontra⟩
      · simp only [Bool.not_eq_true] at hfile
        simp only [hfile, Bool.false_eq_true, if_false] at h
        simp only [Except.ok.injEq, Prod.mk.injEq] at h
        exact ⟨Or.inl h.2.symm, fun _ => h.2.symm⟩
    · simp only [Bool.not_eq_true] at htgt
      simp only [htgt, Bool.false_eq_true, if_false] at h
      simp only [Except.ok.injEq, Prod.mk.injEq] at h
      exact ⟨Or.inl h.2.symm, fun _ => h.2.symm⟩
  · simp only [Bool.not_eq_true] at hnd
    simp only [hnd, Bool.false_eq_true, if_false, Option.isNone_none, Bool.true_and] at h
    by_cases hpe : (xml_spectral_model_to_gammapy_params src.spectrum
        (splitEblAtten src.spectrumType) tgt
        (catalogSpectrumFamily (splitEblAtten src.spectrumType) src.spectrumType).2).isEmpty
    · simp only [hpe, Bool.not_true, Bool.false_eq_true, if_false] at h
      by_cases htgt : tgt = true
      · simp only [htgt, if_true] at h; cases h
      · simp only [Bool.not_eq_true] at htgt
        simp only [htgt, Bool.false_eq_true, if_false] at h
        simp only [Except.ok.injEq, Prod.mk.injEq] at h
        exact ⟨Or.inl h.2.symm, fun _ => h.2.symm⟩
    · simp only [Bool.not_eq_true] at hpe
      simp only [hpe, Bool.not_false, if_true] at h
      cases h

/-- Frame lemma for `create_source_skymodel`: the returned config is the
input config, possibly with the first component's EBL reference tag
overwritten; unchanged whenever the custom EBL filename does not resolve. -/
theorem create_source_config_frame (isF : String → Bool) (cfg : Target)
    (src : XmlSource) (aux : String) (m : SkyModelRep) (t : Bool) (cfg2 : Target)
    (h : create_source_skymodel isF cfg src aux = .ok (m, t, cfg2))
    (mc : SkyModelComponent) (rest : List SkyModelComponent)
    (hcomp : cfg.components = mc :: rest) :
    (cfg2 = cfg ∨
      cfg2 = setHeadEblReference cfg (eblRefFromFilename mc.spectral.ebl_abs.filename)) ∧
    (isF mc.spectral.ebl_abs.filename = false → cfg2 = cfg) := by
  simp only [create_source_skymodel] at h
  cases hcond : isSourceTarget cfg src && !cfg.from_3d with
  | true =>
    rw [hcond] at h
    simp only [if_true] at h
    cases hR : read_models_from_asgardpy_config isF cfg with
    | error e => rw [hR] at h; cases h
    | ok v =>
      obtain ⟨s, sp, cfgR⟩ := v
      rw [hR] at h
      simp only [Except.map] at h
      cases hsp : xml_spatial_model_to_gammapy aux src.spatialModel with
      | error e => rw [hsp] at h; cases h
      | ok r =>
        rw [hsp] at h
        simp only [Except.ok.injEq, Prod.mk.injEq] at h
        obtain ⟨hm, ht, hcfg⟩ := h
        rw [← hcfg]
        exact read_models_config_frame isF cfg s sp cfgR hR mc rest hcomp
  | false =>
    rw [hcond] at h
    simp only [Bool.false_eq_true, if_false] at h
    cases hcat : catalogSpectral isF cfg src (isSourceTarget cfg src) with
    | error e => rw [hcat] at h; cases h
    | ok v =>
      obtain ⟨sF, cfgC⟩ := v
      rw [hcat] at h
      cases hsp : xml_spatial_model_to_gammapy aux src.spatialModel with
      | error e => rw [hsp] at h; cases h
      | ok r =>
        rw [hsp] at h
        cases sF with
        | none => cases h
        | some sm =>
          simp only [Except.ok.injEq, Prod.mk.injEq] at h
          obtain ⟨hm, ht, hcfg⟩ := h
          rw [← hcfg]
          exact catalogSpectral_config isF cfg src (isSourceTarget cfg src) (some sm)
            cfgC hcat mc rest hcomp

def specC8w : SpectralModelConfig :=
  { type := "PowerLawSpectralModel",
    parameters := [{ name := "amplitude", value := 3, unit := "cm-2 s-1 TeV-1",
                     error := 1, min := 0, max := 9, frozen := false }],
    ebl_abs := { filename := "dom-alt-ebl.fits.gz", reference := "dominguez",
                 redshift := 1, alpha_norm := 1 } }

def compC8w : SkyModelComponent := { spectral := specC8w, spatial := { type := "" } }

def cfgC8w : Target := { source_name := "SrcEight", components := [compC8w] }

/-- C8 counterexample: with a config whose first component names a custom
EBL file that resolves (isF always true), `read_models_from_asgardpy_config`
returns a config whose attenuation reference tag changed from "dominguez"
to "dom_alt_ebl" (the file stem with dashes turned to underscores): the
Assembler DOES mutate a field of the TargetSpec. -/
theorem assembler_config_immutable_counterexample :
    ∃ s spat cfg2,
      read_models_from_asgardpy_config (fun _ => true) cfgC8w = .ok (s, spat, cfg2) ∧
      cfg2.components.map (fun c => c.spectral.ebl_abs.reference) = ["dom_alt_ebl"] ∧
      cfgC8w.components.map (fun c => c.spectral.ebl_abs.reference) = ["dominguez"] :=
  ⟨_, _, _, rfl, rfl, rfl⟩

/-- C8 (amended): the Assembler (create_source_skymodel, and
read_models_from_asgardpy_config) leaves every field of the TargetSpec
unchanged EXCEPT possibly the first component's attenuation reference tag:
the returned config is either the input config unchanged, or the input
config with only that tag overwritten with the name derived from the
custom EBL file; and whenever the configured EBL filename does not resolve
to an existing file, the config is returned entirely unchanged.  (The tag
is not always overwritten when the file resolves: a non-target catalog
entry, or an empty EBL reference in the config path, leaves the config
untouched.) -/
theorem assembler_mutates_only_ebl_reference (isF : String → Bool) (cfg : Target)
    (src : XmlSource) (aux : String) (mc : SkyModelComponent)
    (rest : List SkyModelComponent) (hcomp : cfg.components = mc :: rest) :
    (∀ s spat cfg2, read_models_from_asgardpy_config isF cfg = .ok (s, spat, cfg2) →
      (cfg2 = cfg ∨ cfg2 = setHeadEblReference cfg
          (eblRefFromFilename mc.spectral.ebl_abs.filename)) ∧
      (isF mc.spectral.ebl_abs.filename = false → cfg2 = cfg)) ∧
    (∀ m t cfg2, create_source_skymodel isF cfg src aux = .ok (m, t, cfg2) →
      (cfg2 = cfg ∨ cfg2 = setHeadEblReference cfg
          (eblRefFromFilename mc.spectral.ebl_abs.filename)) ∧
      (isF mc.spectral.ebl_abs.filename = false → cfg2 = cfg)) :=
  ⟨fun s spat cfg2 h => read_models_config_frame isF cfg s spat cfg2 h mc rest hcomp,
   fun m t cfg2 h => create_source_config_frame isF cfg src aux m t cfg2 h mc rest hcomp⟩

/-- C8 witness: the amended frame property at a concrete config with a
resolving custom EBL file. -/
theorem assembler_mutates_only_ebl_reference_witness :
    (setHeadEblReference cfgC8w "dom_alt_ebl" = cfgC8w ∨
     setHeadEblReference cfgC8w "dom_alt_ebl" = setHeadEblReference cfgC8w
       (eblRefFromFilename compC8w.spectral.ebl_abs.filename)) ∧
    ((fun _ => true) compC8w.spectral.ebl_abs.filename = false →
      setHeadEblReference cfgC8w "dom_alt_ebl" = cfgC8w) := by
  have h : read_models_from_asgardpy_config (fun _ => true) cfgC8w
      = .ok (.prod (.registryFromDict "PowerLawSpectralModel"
              (config_to_dict specC8w.toModelConfigBase))
            (.withAlphaNorm 1 (.eblFile "dom-alt-ebl.fits.gz" 1)),
          none, setHeadEblReference cfgC8w "dom_alt_ebl") := by rfl
  exact (assembler_mutates_only_ebl_reference (fun _ => true) cfgC8w
    { name := "x", spectrumType := "PowerLaw", spectrum := [],
      spatialModel := { type := "" } } "p" compC8w [] rfl).1 _ _ _ h

/-- Shape of a successful catalog spectral build: the model instantiates the
registry class chosen by `catalogSpectrumFamily`, carries the parameters
translated with that family's keep_sign flag, and is multiplied by the EBL
model for the target source. -/
theorem catalogSpectral_ok_spectral (isF : String → Bool) (cfg1 : Target)
    (src : XmlSource) (tgt : Bool) (sF : SpectralRep) (cfg2 : Target)
    (h : catalogSpectral isF cfg1 src tgt = .ok (some sF, cfg2)) :
    sF = .catalog (catalogSpectrumFamily (splitEblAtten src.spectrumType)
          src.spectrumType).1
        (xml_spectral_model_to_gammapy_params src.spectrum
          (splitEblAtten src.spectrumType) tgt
          (catalogSpectrumFamily (splitEblAtten src.spectrumType) src.spectrumType).2) ∨
    ∃ e, sF = .prod (.catalog (catalogSpectrumFamily (splitEblAtten src.spectrumType)
          src.spectrumType).1
        (xml_spectral_model_to_gammapy_params src.spectrum
          (splitEblAtten src.spectrumType) tgt
          (catalogSpectrumFamily (splitEblAtten src.spectrumType) src.spectrumType).2))
        e := by
  simp only [catalogSpectral] at h
  by_cases hnd : hasNonDiffuse src.spectrum
  · simp only [hnd, if_true, Option.isNone_some, Bool.false_and, Bool.false_eq_true,
      if_false] at h
    cases hcomp : cfg1.components with
    | nil => rw [hcomp] at h; cases h
    | cons mc rest =>
      rw [hcomp] at h
      dsimp only at h
      by_cases htgt : tgt = true
      · subst htgt
        simp only [if_true] at h
        by_cases hfile : isF mc.spectral.ebl_abs.filename
        · simp only [hfile, if_true] at h
          simp only [Except.ok.injEq, Prod.mk.injEq, Option.some.injEq] at h
          exact Or.inr ⟨_, h.1.symm⟩
        · simp only [Bool.not_eq_true] at hfile
          simp only [hfile, Bool.false_eq_true, if_false] at h
          simp only [Except.ok.injEq, Prod.mk.injEq, Option.some.injEq] at h
          exact Or.inr ⟨_, h.1.symm⟩
      · simp only [Bool.not_eq_true] at htgt
        subst htgt
        simp only [Bool.false_eq_true, if_false] at h
        simp only [Except.ok.injEq, Prod.mk.injEq, Option.some.injEq] at h
        exact Or.inl h.1.symm
  · simp only [Bool.not_eq_true] at hnd
    simp only [hnd, Bool.false_eq_true, if_false, Option.isNone_none, Bool.true_and] at h
    by_cases hpe : (xml_spectral_model_to_gammapy_params src.spectrum
        (splitEblAtten src.spectrumType) tgt
        (catalogSpectrumFamily (splitEblAtten src.spectrumType) src.spectrumType).2).isEmpty
    · simp only [hpe, Bool.not_true, Bool.false_eq_true, if_false] at h
      cases hcomp : cfg1.components with
      | nil => rw [hcomp] at h; cases h
      | cons mc rest =>
        rw [hcomp] at h
        dsimp only at h
        by_cases htgt : tgt = true
        · subst htgt
          simp only [if_true] at h
          cases h
        · simp only [Bool.not_eq_true] at htgt
          subst htgt
          simp only [Bool.false_eq_true, if_false] at h
          simp only [Except.ok.injEq, Prod.mk.injEq] at h
          cases h.1
    · simp only [Bool.not_eq_true] at hpe
      simp only [hpe, Bool.not_false, if_true] at h
      cases h

/-- In the catalog path (the spectral model is not taken from the config),
the assembled spectral model is the one built by `catalogSpectral`. -/
theorem create_source_catalog_spectral (isF : String → Bool) (cfg : Target)
    (src : XmlSource) (aux : String) (m : SkyModelRep) (t : Bool) (cfg2 : Target)
    (h : create_source_skymodel isF cfg src aux = .ok (m, t, cfg2))
    (hcond : (isSourceTarget cfg src && !cfg.from_3d) = false) :
    ∃ sF cfgC,
      catalogSpectral isF cfg src (isSourceTarget cfg src) = .ok (some sF, cfgC) ∧
      m.spectral = some sF := by
  simp only [create_source_skymodel] at h
  rw [hcond] at h
  simp only [Bool.false_eq_true, if_false] at h
  cases hcat : catalogSpectral isF cfg src (isSourceTarget cfg src) with
  | error e => rw [hcat] at h; cases h
  | ok v =>
    obtain ⟨sF, cfgC⟩ := v
    rw [hcat] at h
    cases hsp : xml_spatial_model_to_gammapy aux src.spatialModel with
    | error e => rw [hsp] at h; cases h
    | ok r =>
      rw [hsp] at h
      cases sF with
      | none => cases h
      | some sm =>
        simp only [Except.ok.injEq, Prod.mk.injEq] at h
        exact ⟨sm, cfgC, rfl, by rw [← h.1]⟩

/-- C9: a catalog entry whose spectrum type tag is LogParabola prefixed with
the attenuation marker ("EblAtten::" — the full tag contains "EblAtten" and
the part after "EblAtten::" is "LogParabola"), whose spectral model is
taken from the catalog, is built as a PowerLawSpectralModel instead of a
LogParabolaSpectralModel, and its parameters are translated with
keep_sign=true, preserving the spectral indices' signs.  (For the
3D-sourced target case the same PowerLaw base appears under the EBL
product.) -/
theorem eblatten_logparabola_powerlaw (isF : String → Bool) (cfg : Target)
    (src : XmlSource) (aux : String) (m : SkyModelRep) (t : Bool) (cfg2 : Target)
    (h : create_source_skymodel isF cfg src aux = .ok (m, t, cfg2))
    (hty : splitEblAtten src.spectrumType = "LogParabola")
    (hebl : containsEblAtten src.spectrumType = true)
    (hcat : isSourceTarget cfg src = false ∨ cfg.from_3d = true) :
    m.spectral = some (.catalog "PowerLawSpectralModel"
        (xml_spectral_model_to_gammapy_params src.spectrum "LogParabola"
          (isSourceTarget cfg src) true)) ∨
    ∃ e, m.spectral = some (.prod (.catalog "PowerLawSpectralModel"
        (xml_spectral_model_to_gammapy_params src.spectrum "LogParabola"
          (isSourceTarget cfg src) true)) e) := by
  have hfam : catalogSpectrumFamily (splitEblAtten src.spectrumType) src.spectrumType
      = ("PowerLawSpectralModel", true) := by
    rw [hty]
    simp [catalogSpectrumFamily, hebl]
  have hcond : (isSourceTarget cfg src && !cfg.from_3d) = false := by
    rcases hcat with hc | hc
    · rw [hc]; rfl
    · rw [hc]; simp
  obtain ⟨sF, cfgC, hok, hspec⟩ :=
    create_source_catalog_spectral isF cfg src aux m t cfg2 h hcond
  have hshape := catalogSpectral_ok_spectral isF cfg src (isSourceTarget cfg src) sF cfgC hok
  rw [hfam, hty] at hshape
  dsimp only at hshape
  rcases hshape with h1 | ⟨e, h1⟩
  · exact Or.inl (by rw [hspec, h1])
  · exact Or.inr ⟨e, by rw [hspec, h1]⟩

def srcC9w : XmlSource :=
  { name := "other source",
    spectrumType := "EblAtten::LogParabola",
    spectrum := [{ name := "Index", value := -2, scale := 1, min := -5, max := -1,
                   free := "1" }],
    spatialModel := { type := "SkyDirFunction",
                      parameter := [{ name := "RA", value := "10.0" },
                                    { name := "DEC", value := "20.0" }] } }

def cfgC9w : Target := { source_name := "TheTarget" }

def mC9w : SkyModelRep :=
  { name := "other source",
    spectral := some (.catalog "PowerLawSpectralModel"
      (xml_spectral_model_to_gammapy_params srcC9w.spectrum "LogParabola" false true)),
    spatial := some { rep := .pointGal "10.0 deg" "20.0 deg", frozen := true },
    datasets_names := none }

/-- C9 witness: a concrete non-target EblAtten::LogParabola catalog entry
yields a PowerLaw model with keep_sign=true parameter translation. -/
theorem eblatten_logparabola_powerlaw_witness :
    mC9w.spectral
      = some (.catalog "PowerLawSpectralModel"
          (xml_spectral_model_to_gammapy_params srcC9w.spectrum "LogParabola"
            (isSourceTarget cfgC9w srcC9w) true)) ∨
    ∃ e, mC9w.spectral
        = some (.prod (.catalog "PowerLawSpectralModel"
            (xml_spectral_model_to_gammapy_params srcC9w.spectrum "LogParabola"
              (isSourceTarget cfgC9w srcC9w) true)) e) := by
  have h : create_source_skymodel (fun _ => false) cfgC9w srcC9w "p"
      = .ok (mC9w, false, cfgC9w) := by rfl
  exact eblatten_logparabola_powerlaw (fun _ => false) cfgC9w srcC9w "p" mC9w false cfgC9w
    h rfl rfl (Or.inl rfl)

/-- C1: `create_source_skymodel` returns is_target=true exactly when the
catalog entry's name and the TargetSpec's source name agree after removing
underscores and spaces (case-sensitively); when is_target=true and
from_3d=false the spectral model of the assembled SkyModel is the one built
from the structured config components (by read_models_from_asgardpy_config),
not from the catalog parameters; and the spatial model is always the one
built from the catalog entry's spatial block, frozen. -/
theorem create_source_skymodel_target_rule (isF : String → Bool) (cfg : Target)
    (src : XmlSource) (aux : String) (m : SkyModelRep) (t : Bool) (cfg2 : Target)
    (h : create_source_skymodel isF cfg src aux = .ok (m, t, cfg2)) :
    t = (normalizeName src.name == normalizeName cfg.source_name) ∧
    (t = true → cfg.from_3d = false →
      ∃ s spat cfgR, read_models_from_asgardpy_config isF cfg = .ok (s, spat, cfgR) ∧
        m.spectral = some s) ∧
    (∃ r, xml_spatial_model_to_gammapy aux src.spatialModel = .ok r ∧
      m.spatial = some { rep := r, frozen := true }) := by
  simp only [create_source_skymodel] at h
  cases hT : isSourceTarget cfg src with
  | false =>
    rw [hT] at h
    simp only [Bool.false_and, Bool.false_eq_true, if_false] at h
    cases hcat : catalogSpectral isF cfg src false with
    | error e => rw [hcat] at h; cases h
    | ok v =>
      obtain ⟨sF, cfgC⟩ := v
      rw [hcat] at h
      cases hsp : xml_spatial_model_to_gammapy aux src.spatialModel with
      | error e => rw [hsp] at h; cases h
      | ok r =>
        rw [hsp] at h
        cases sF with
        | none => cases h
        | some sm =>
          simp only [Except.ok.injEq, Prod.mk.injEq] at h
          obtain ⟨hm, ht, hcfg⟩ := h
          refine ⟨ht ▸ hT.symm, ?_, ⟨r, rfl, by rw [← hm]⟩⟩
          intro htrue _
          rw [← ht] at htrue
          cases htrue
  | true =>
    rw [hT] at h
    cases hF : cfg.from_3d with
    | false =>
      rw [hF] at h
      simp only [Bool.true_and, Bool.not_false, if_true] at h
      cases hR : read_models_from_asgardpy_config isF cfg with
      | error e => rw [hR] at h; cases h
      | ok v =>
        obtain ⟨s, sp, cfgR⟩ := v
        rw [hR] at h
        simp only [Except.map] at h
        cases hsp : xml_spatial_model_to_gammapy aux src.spatialModel with
        | error e => rw [hsp] at h; cases h
        | ok r =>
          rw [hsp] at h
          simp only [Except.ok.injEq, Prod.mk.injEq] at h
          obtain ⟨hm, ht, hcfg⟩ := h
          refine ⟨ht ▸ hT.symm, ?_, ⟨r, rfl, by rw [← hm]⟩⟩
          intro _ _
          exact ⟨s, sp, cfgR, rfl, by rw [← hm]⟩
    | true =>
      rw [hF] at h
      simp only [Bool.not_true, Bool.and_false, Bool.false_eq_true, if_false] at h
      cases hcat : catalogSpectral isF cfg src true with
      | error e => rw [hcat] at h; cases h
      | ok v =>
        obtain ⟨sF, cfgC⟩ := v
        rw [hcat] at h
        cases hsp : xml_spatial_model_to_gammapy aux src.spatialModel with
        | error e => rw [hsp] at h; cases h
        | ok r =>
          rw [hsp] at h
          cases sF with
          | none => cases h
          | some sm =>
            simp only [Except.ok.injEq, Prod.mk.injEq] at h
            obtain ⟨hm, ht, hcfg⟩ := h
            refine ⟨ht ▸ hT.symm, ?_, ⟨r, rfl, by rw [← hm]⟩⟩
            intro _ hfrom
            cases hfrom

def specC1w : SpectralModelConfig :=
  { type := "PowerLawSpectralModel",
    parameters := [{ name := "amplitude", value := 2, unit := "cm-2 s-1 TeV-1",
                     error := 1, min := 0, max := 5, frozen := false }],
    ebl_abs := { filename := "ebl.fits.gz", reference := "dominguez",
                 redshift := 1, alpha_norm := 1 } }

def cfgC1w : Target :=
  { source_name := "PKS 2155-304",
    components := [{ spectral := specC1w, spatial := { type := "" } }],
    from_3d := false }

def srcC1w : XmlSource :=
  { name := "PKS_2155-304",
    spectrumType := "PowerLaw",
    spectrum := [{ name := "Prefactor", value := 2, scale := 1, min := 0, max := 5,
                   free := "1" }],
    spatialModel := { type := "SkyDirFunction",
                      parameter := [{ name := "RA", value := "329.7" },
                                    { name := "DEC", value := "-30.2" }] } }

def mC1w : SkyModelRep :=
  { name := "PKS 2155-304",
    spectral := some (.prod
      (.registryFromDict "PowerLawSpectralModel"
        { type := "PowerLawSpectralModel",
          parameters := [{ name := "amplitude", value := 2, unit := "cm-2 s-1 TeV-1",
                           error := 1, min := 0, max := 5, frozen := false }] })
      (.withAlphaNorm 1 (.eblBuiltin "dominguez" 1))),
    spatial := some { rep := .pointGal "329.7 deg" "-30.2 deg", frozen := true },
    datasets_names := none }

/-- C1 witness: a concrete catalog entry whose underscore-normalized name
matches the TargetSpec source name, with from_3d=false, yields
is_target=true, the config-built spectral model and the catalog-built
frozen spatial model. -/
theorem create_source_skymodel_target_rule_witness :
    (true : Bool) = (normalizeName srcC1w.name == normalizeName cfgC1w.source_name) ∧
    (∃ s spat cfgR,
      read_models_from_asgardpy_config (fun _ => false) cfgC1w = .ok (s, spat, cfgR) ∧
      mC1w.spectral = some s) ∧
    (∃ r, xml_spatial_model_to_gammapy "p" srcC1w.spatialModel = .ok r ∧
      mC1w.spatial = some { rep := r, frozen := true }) := by
  have h : create_source_skymodel (fun _ => false) cfgC1w srcC1w "p"
      = .ok (mC1w, true, cfgC1w) := by rfl
  have H := create_source_skymodel_target_rule (fun _ => false) cfgC1w srcC1w "p"
    mC1w true cfgC1w h
  exact ⟨H.1, H.2.1 rfl rfl, H.2.2⟩

end Asgardpy
